import Mathlib

/-!
Verification of the Desktop Widgets application (src/main.py) against its
natural-language specification.

The development shallowly embeds the two state-bearing parts of the program:

* `DataManager` (src/main.py:27-99): the persistent JSON document store with
  its load/merge/save contract.  Python dicts are modelled as association
  lists in insertion order with first-occurrence lookup/update semantics
  (`dictGet?` / `dictSet`), which coincides with dict behaviour on the
  duplicate-free lists a dict can actually hold.
* `PomodoroWidget` (src/main.py:1038-1311): the focus/break timer state
  machine, its settings dialog, and the session-history aggregation.
  Machine state is the record of the instance attributes the timer methods
  read and write; Python ints are `Int`.  Calendar days are modelled as
  natural numbers with day 0 falling on a Monday, so `d % 7` is Python's
  `date.weekday()` (Monday = 0) and the ISO date string key of a day is the
  day number itself.
-/

set_option autoImplicit false

universe u v

/-- First-occurrence lookup in an association list; `dict.get`/`in` on a
Python dict (whose key lists are duplicate-free). -/
def dictGet? {α : Type u} {β : Type v} [DecidableEq α] : List (α × β) → α → Option β
  | [], _ => none
  | (k', v') :: rest, k => if k' = k then some v' else dictGet? rest k

/-- Python dict item assignment `d[k] = v`: replaces the value at the first
occurrence of `k`, or appends `(k, v)` when `k` is absent (dicts preserve
insertion order). -/
def dictSet {α : Type u} {β : Type v} [DecidableEq α] : List (α × β) → α → β → List (α × β)
  | [], k, v => [(k, v)]
  | (k', v') :: rest, k, v =>
      if k' = k then (k, v) :: rest else (k', v') :: dictSet rest k v

/-- JSON-compatible values stored in the widget document. -/
inductive JVal : Type where
  | jbool (b : Bool)
  | jint (n : Int)
  | jstr (s : String)
  | jarr (xs : List JVal)
  | jobj (fields : List (String × JVal))

/-- The canonical default document `default_data` of `DataManager.load_data`
(src/main.py:35-74), transcribed key by key in source order. -/
def default_data : List (String × JVal) :=
  [ ("widget_positions", JVal.jobj []),
    ("widget_colors", JVal.jobj
      [ ("calendar", JVal.jstr "#E3F2FD"),
        ("todo", JVal.jstr "#F3E5F5"),
        ("day_planner", JVal.jstr "#E8F5E9"),
        ("weekly_planner", JVal.jstr "#FFF3E0"),
        ("monthly_planner", JVal.jstr "#FCE4EC"),
        ("pomodoro", JVal.jstr "#E0F7FA") ]),
    ("widget_sizes", JVal.jobj
      [ ("calendar", JVal.jstr "compact"),
        ("todo", JVal.jstr "compact"),
        ("day_planner", JVal.jstr "compact"),
        ("weekly_planner", JVal.jstr "compact"),
        ("monthly_planner", JVal.jstr "compact"),
        ("pomodoro", JVal.jstr "compact") ]),
    ("widget_visible", JVal.jobj
      [ ("calendar", JVal.jbool true),
        ("todo", JVal.jbool true),
        ("day_planner", JVal.jbool true),
        ("weekly_planner", JVal.jbool true),
        ("monthly_planner", JVal.jbool true),
        ("pomodoro", JVal.jbool true) ]),
    ("calendar_events", JVal.jobj []),
    ("todo_items", JVal.jarr []),
    ("day_plans", JVal.jobj []),
    ("weekly_plans", JVal.jobj []),
    ("monthly_plans", JVal.jobj []),
    ("pomodoro_settings", JVal.jobj
      [ ("focus_time", JVal.jint 25),
        ("break_time", JVal.jint 5),
        ("long_break_time", JVal.jint 15),
        ("sessions_before_long_break", JVal.jint 4) ]),
    ("pomodoro_history", JVal.jobj []),
    ("autostart", JVal.jbool true) ]

/-- The merge loop of `load_data` (src/main.py:80-82), generalised over the
defaults list for the proofs:
`for key in default_data: if key not in saved_data: saved_data[key] = default_data[key]`. -/
def merge_missing_with (ds saved : List (String × JVal)) : List (String × JVal) :=
  ds.foldl (fun acc kv => if (dictGet? acc kv.1).isSome then acc else dictSet acc kv.1 kv.2) saved

/-- The shallow merge performed by `load_data` on a successfully parsed
document (src/main.py:80-82). -/
def merge_missing (saved : List (String × JVal)) : List (String × JVal) :=
  merge_missing_with default_data saved

/-- Outcome of trying to read and parse the on-disk document in `load_data`
(src/main.py:76-79): the file may be absent, may fail to read or parse
(any exception is caught by the bare `except:`), or parse to a document. -/
inductive ReadResult : Type where
  | missingFile
  | parseFailure
  | ok (saved : List (String × JVal))

/-- Result of `load_data`: the in-memory document `self.data` and the
document passed to the unconditional `save_data()` write-back
(src/main.py:88). -/
structure LoadOutcome where
  data : List (String × JVal)
  written : List (String × JVal)

/-- Embedding of `DataManager.load_data` (src/main.py:34-88): parse success merges the
defaults shallowly and writes the merged document back; a missing file or
any read/parse failure falls back to `default_data` (also written back). -/
def load_data : ReadResult → LoadOutcome
  | ReadResult.ok saved =>
      let merged := merge_missing saved
      { data := merged, written := merged }
  | ReadResult.parseFailure => { data := default_data, written := default_data }
  | ReadResult.missingFile => { data := default_data, written := default_data }

/-- The write of `DataManager.save_data` (src/main.py:90-92) opens the data file with
`open(self.data_file, 'w')` — which truncates it to empty on the spot — and
then serialises the document into it; there is no temporary file, no rename,
and no try/except.  This function gives the on-disk contents after `steps`
steps of that sequence: 0 = before the call, 1 = after the truncating open,
2 = after `json.dump` completes. -/
def save_data_disk_after (old serialized : String) (steps : Nat) : String :=
  if steps = 0 then old else if steps = 1 then "" else serialized

/-- One day's entry in `pomodoro_history`: the dict
`{'sessions': ..., 'focus_minutes': ...}` (src/main.py:1289). -/
structure Bucket where
  sessions : Int
  focus_minutes : Int
deriving DecidableEq

/-- The timer-relevant instance attributes of `PomodoroWidget`
(src/main.py:1038-1063), plus the current day and the persisted
`pomodoro_history` dict that `record_session` reads and writes through
`DataManager`.  Days are numbered so that day 0 is a Monday. -/
structure PomodoroState where
  timer_running : Bool
  is_focus_time : Bool
  remaining_seconds : Int
  sessions_completed : Int
  focus_time : Int
  break_time : Int
  long_break_time : Int
  sessions_before_long_break : Int
  today : Nat
  history : List (Nat × Bucket)
deriving DecidableEq

/-- The history update of `PomodoroWidget.record_session`
(src/main.py:1284-1294): create today's bucket with zeros if absent, then
increment its `sessions` by 1 and its `focus_minutes` by the configured
focus duration.  The unreachable `none` arm keeps the function total (the
key was just inserted when missing). -/
def record_session_hist (today : Nat) (focus_time : Int)
    (history : List (Nat × Bucket)) : List (Nat × Bucket) :=
  let history :=
    if (dictGet? history today).isSome then history
    else dictSet history today ⟨0, 0⟩
  match dictGet? history today with
  | some b => dictSet history today ⟨b.sessions + 1, b.focus_minutes + focus_time⟩
  | none => history

/-- Embedding of `PomodoroWidget.record_session` (src/main.py:1284-1294) as a state
transformer: it only rewrites the persisted history dict. -/
def record_session (s : PomodoroState) : PomodoroState :=
  { s with history := record_session_hist s.today s.focus_time s.history }

/-- Embedding of `PomodoroWidget.timer_complete` (src/main.py:1210-1243): stop the timer;
on a focus completion increment the cycle counter, record the session, and
move to a break — the long one (resetting the counter) once the counter has
reached `sessions_before_long_break`, the short one otherwise; on a break
completion move back to focus.  The break kind is encoded only by the
duration assigned to `remaining_seconds` (the code keeps a single
`is_focus_time` flag). -/
def timer_complete (s0 : PomodoroState) : PomodoroState :=
  let s := { s0 with timer_running := false }
  if s.is_focus_time then
    let s := record_session { s with sessions_completed := s.sessions_completed + 1 }
    let s := { s with is_focus_time := false }
    if s.sessions_completed ≥ s.sessions_before_long_break then
      { s with remaining_seconds := s.long_break_time * 60, sessions_completed := 0 }
    else
      { s with remaining_seconds := s.break_time * 60 }
  else
    { s with is_focus_time := true, remaining_seconds := s.focus_time * 60 }

/-- One firing of the tick callback `PomodoroWidget.run_timer`
(src/main.py:1202-1208): while running with time left it decrements by one
fixed second and re-arms itself via `self.after(1000, ...)`; otherwise, if
`remaining_seconds == 0` — with no guard on `timer_running` — it invokes
`timer_complete`. -/
def run_timer (s : PomodoroState) : PomodoroState :=
  if s.timer_running ∧ s.remaining_seconds > 0 then
    { s with remaining_seconds := s.remaining_seconds - 1 }
  else if s.remaining_seconds = 0 then
    timer_complete s
  else s

/-- Embedding of `PomodoroWidget.skip_session` (src/main.py:1253-1256): stop the timer
and invoke the very same `timer_complete` used by natural expiry. -/
def skip_session (s : PomodoroState) : PomodoroState :=
  timer_complete { s with timer_running := false }

/-- Embedding of `PomodoroWidget.reset_timer` (src/main.py:1245-1251). -/
def reset_timer (s : PomodoroState) : PomodoroState :=
  { s with timer_running := false, is_focus_time := true,
           remaining_seconds := s.focus_time * 60 }

/-- Digit-string value, the core of Python's `int(...)` on the strings the
settings spinboxes yield: all characters must be digits and there must be at
least one. -/
def digits_val? (cs : List Char) : Option Nat :=
  if cs ≠ [] ∧ cs.all Char.isDigit then
    some (cs.foldl (fun a c => 10 * a + (c.toNat - 48)) 0)
  else none

/-- Python `int(s)` for a spinbox string: optional surrounding whitespace,
an optional sign, then decimal digits; anything else raises `ValueError`
(modelled as `none`).  Underscore digit grouping is not modelled; no input
considered here uses it. -/
def pyInt? (s : String) : Option Int :=
  let stripped :=
    ((s.toList.dropWhile Char.isWhitespace).reverse.dropWhile Char.isWhitespace).reverse
  match stripped with
  | '-' :: cs => (digits_val? cs).map (fun n => -(n : Int))
  | '+' :: cs => (digits_val? cs).map (fun n => (n : Int))
  | cs => (digits_val? cs).map (fun n => (n : Int))

/-- Embedding of `PomodoroWidget.save_settings` (src/main.py:1258-1282): parse the three
spinbox strings with `int(...)` in source order — a `ValueError` anywhere
aborts before any attribute or store mutation (`false` result, error
dialog); on success store and apply all three durations (keeping
`sessions_before_long_break`), and, when the timer is not running, reset
`remaining_seconds` to the new focus duration. -/
def save_settings (s : PomodoroState) (focusStr breakStr longStr : String) :
    PomodoroState × Bool :=
  match pyInt? focusStr with
  | none => (s, false)
  | some focus =>
    match pyInt? breakStr with
    | none => (s, false)
    | some btime =>
      match pyInt? longStr with
      | none => (s, false)
      | some lbreak =>
        let s := { s with focus_time := focus, break_time := btime,
                          long_break_time := lbreak }
        let s :=
          if ¬ s.timer_running then { s with remaining_seconds := s.focus_time * 60 }
          else s
        (s, true)

/-- The weekly aggregation `PomodoroWidget.get_week_stats`
(src/main.py:1296-1311): `week_start` is the Monday on/before today
(`today - timedelta(days=today.weekday())`, i.e. `today - today % 7` in the
day numbering), and the loop adds the `sessions` and `focus_minutes` of
each of the 7 days that has a bucket.  Returns (total sessions, total
minutes); the history is only read. -/
def get_week_stats (today : Nat) (history : List (Nat × Bucket)) : Int × Int :=
  let week_start := today - today % 7
  (List.range 7).foldl
    (fun acc i =>
      match dictGet? history (week_start + i) with
      | some b => (acc.1 + b.sessions, acc.2 + b.focus_minutes)
      | none => acc)
    (0, 0)

/-- The bucket the spec attributes to a day: the stored one, or a zero
bucket for a day with no entry. -/
def bucketAt (history : List (Nat × Bucket)) (d : Nat) : Bucket :=
  (dictGet? history d).getD ⟨0, 0⟩

/-- The Monday-through-Sunday window of days containing `today`. -/
def week_window (today : Nat) : List Nat :=
  (List.range 7).map (fun i => (today - today % 7) + i)

/-- The spec's reading of weekly totals: the componentwise sum of the
buckets of the days of the week window, a missing day contributing zero. -/
def week_totals_spec (today : Nat) (history : List (Nat × Bucket)) : Int × Int :=
  (((week_window today).map (fun d => (bucketAt history d).sessions)).sum,
   ((week_window today).map (fun d => (bucketAt history d).focus_minutes)).sum)

/-- The spec's deadline-based remaining-time computation (spec section 4.3):
`remaining = max(0, deadline - now)`, with `deadline = start + initial
remaining seconds`. -/
def deadline_remaining (deadline now : Int) : Int := max 0 (deadline - now)

/-- Number of tick callbacks that have fired after `elapsed` seconds when
scheduling jitter stretches the nominal 1-second interval to `interval`
seconds per firing. -/
def ticks_fired_by (interval elapsed : Nat) : Nat := elapsed / interval

theorem dictGet?_dictSet_self {α : Type u} {β : Type v} [DecidableEq α]
    (d : List (α × β)) (k : α) (v : β) :
    dictGet? (dictSet d k v) k = some v := by
  induction d with
  | nil => simp [dictGet?, dictSet]
  | cons kv rest ih =>
    obtain ⟨k', v'⟩ := kv
    by_cases h : k' = k
    · simp [dictGet?, dictSet, h]
    · simp [dictGet?, dictSet, h, ih]


theorem dictGet?_dictSet_ne {α : Type u} {β : Type v} [DecidableEq α]
    (d : List (α × β)) (k k' : α) (v : β) (hne : k' ≠ k) :
    dictGet? (dictSet d k v) k' = dictGet? d k' := by
  have hne' : ¬ (k = k') := fun h => hne h.symm
  induction d with
  | nil => simp [dictGet?, dictSet, hne']
  | cons kv rest ih =>
    obtain ⟨k0, v0⟩ := kv
    by_cases h : k0 = k
    · subst h
      simp [dictGet?, dictSet, hne']
    · simp only [dictSet, h, if_false, dictGet?]
      by_cases h' : k0 = k'
      · simp [h']
      · simp [h', ih]

theorem merge_missing_with_preserves (ds : List (String × JVal)) :
    ∀ (saved : List (String × JVal)) (k : String),
      (dictGet? saved k).isSome →
      dictGet? (merge_missing_with ds saved) k = dictGet? saved k := by
  induction ds with
  | nil => intro saved k _; rfl
  | cons kv ds ih =>
    intro saved k hk
    obtain ⟨k0, v0⟩ := kv
    show dictGet? (merge_missing_with ds
      (if (dictGet? saved k0).isSome then saved else dictSet saved k0 v0)) k = _
    by_cases h0 : (dictGet? saved k0).isSome
    · rw [if_pos h0]
      exact ih saved k hk
    · rw [if_neg h0]
      have hne : k ≠ k0 := by
        intro h; subst h; exact h0 hk
      have hset : dictGet? (dictSet saved k0 v0) k = dictGet? saved k :=
        dictGet?_dictSet_ne saved k0 k v0 hne
      rw [ih (dictSet saved k0 v0) k (by rw [hset]; exact hk), hset]

theorem merge_missing_with_covers (ds : List (String × JVal)) :
    ∀ (saved : List (String × JVal)) (k : String),
      k ∈ ds.map Prod.fst →
      (dictGet? (merge_missing_with ds saved) k).isSome := by
  induction ds with
  | nil => intro saved k hk; simp at hk
  | cons kv ds ih =>
    intro saved k hk
    obtain ⟨k0, v0⟩ := kv
    simp only [List.map_cons, List.mem_cons] at hk
    show (dictGet? (merge_missing_with ds
      (if (dictGet? saved k0).isSome then saved else dictSet saved k0 v0)) k).isSome
    rcases hk with h | h
    · subst h
      by_cases h0 : (dictGet? saved k).isSome
      · rw [if_pos h0]
        rw [merge_missing_with_preserves ds saved k h0]
        exact h0
      · rw [if_neg h0]
        have hself : dictGet? (dictSet saved k v0) k = some v0 :=
          dictGet?_dictSet_self saved k v0
        rw [merge_missing_with_preserves ds _ k (by rw [hself]; rfl), hself]
        rfl
    · by_cases h0 : (dictGet? saved k0).isSome
      · rw [if_pos h0]; exact ih saved k h
      · rw [if_neg h0]; exact ih _ k h

theorem merge_missing_with_extra (ds : List (String × JVal)) :
    ∀ (saved : List (String × JVal)) (k : String),
      k ∉ ds.map Prod.fst →
      dictGet? (merge_missing_with ds saved) k = dictGet? saved k := by
  induction ds with
  | nil => intro saved k _; rfl
  | cons kv ds ih =>
    intro saved k hk
    obtain ⟨k0, v0⟩ := kv
    simp only [List.map_cons, List.mem_cons] at hk
    push_neg at hk
    obtain ⟨hne, hk'⟩ := hk
    show dictGet? (merge_missing_with ds
      (if (dictGet? saved k0).isSome then saved else dictSet saved k0 v0)) k = _
    by_cases h0 : (dictGet? saved k0).isSome
    · rw [if_pos h0]; exact ih saved k hk'
    · rw [if_neg h0]
      rw [ih _ k hk', dictGet?_dictSet_ne saved k0 k v0 hne]

theorem merge_missing_with_fills (ds : List (String × JVal)) :
    ∀ (saved : List (String × JVal)) (k : String) (v : JVal),
      dictGet? ds k = some v → dictGet? saved k = none →
      dictGet? (merge_missing_with ds saved) k = some v := by
  induction ds with
  | nil =>
    intro saved k v hd _
    simp [dictGet?] at hd
  | cons kv ds ih =>
    intro saved k v hd habs
    obtain ⟨k0, v0⟩ := kv
    show dictGet? (merge_missing_with ds
      (if (dictGet? saved k0).isSome then saved else dictSet saved k0 v0)) k = some v
    by_cases hk : k0 = k
    · subst hk
      have hv0 : v0 = v := by
        simpa [dictGet?] using hd
      subst hv0
      have h0 : ¬ (dictGet? saved k0).isSome := by
        rw [habs]
        simp
      rw [if_neg h0]
      have hself : dictGet? (dictSet saved k0 v0) k0 = some v0 :=
        dictGet?_dictSet_self saved k0 v0
      rw [merge_missing_with_preserves ds _ k0 (by rw [hself]; rfl), hself]
    · have hd' : dictGet? ds k = some v := by
        simpa [dictGet?, hk] using hd
      by_cases h0 : (dictGet? saved k0).isSome
      · rw [if_pos h0]
        exact ih saved k v hd' habs
      · rw [if_neg h0]
        have habs' : dictGet? (dictSet saved k0 v0) k = none := by
          rw [dictGet?_dictSet_ne saved k0 k v0 (fun h => hk h.symm), habs]
        exact ih _ k v hd' habs'

theorem load_data_ok_eq (saved : List (String × JVal)) :
    load_data (ReadResult.ok saved)
      = { data := merge_missing_with default_data saved,
          written := merge_missing_with default_data saved } := rfl

/-- C2: for every stored document that parses, `load_data` yields a document
in which every canonical top-level key of `default_data` is present; each
canonical key absent from the stored document is filled with exactly its
default value from `default_data`; every key present in the stored document
keeps its stored value unchanged (the merge is shallow: present keys are
never touched, so no nested defaults are merged in); keys outside the
canonical schema keep their stored binding; and the merged document itself
is what is immediately written back to storage. -/
theorem c2_load_shallow_merge (saved : List (String × JVal)) :
    (∀ k, k ∈ default_data.map Prod.fst →
        (dictGet? (load_data (ReadResult.ok saved)).data k).isSome)
  ∧ (∀ k v, dictGet? default_data k = some v → dictGet? saved k = none →
        dictGet? (load_data (ReadResult.ok saved)).data k = some v)
  ∧ (∀ k v, dictGet? saved k = some v →
        dictGet? (load_data (ReadResult.ok saved)).data k = some v)
  ∧ (∀ k, k ∉ default_data.map Prod.fst →
        dictGet? (load_data (ReadResult.ok saved)).data k = dictGet? saved k)
  ∧ (load_data (ReadResult.ok saved)).written = (load_data (ReadResult.ok saved)).data := by
  have hdata : (load_data (ReadResult.ok saved)).data = merge_missing_with default_data saved := by
    rw [load_data_ok_eq]
  have hwritten : (load_data (ReadResult.ok saved)).written
      = merge_missing_with default_data saved := by
    rw [load_data_ok_eq]
  rw [hdata, hwritten]
  refine ⟨?_, ?_, ?_, ?_, rfl⟩
  · intro k hk
    exact merge_missing_with_covers default_data saved k hk
  · intro k v hdv habs
    exact merge_missing_with_fills default_data saved k v hdv habs
  · intro k v hv
    rw [merge_missing_with_preserves default_data saved k (by rw [hv]; rfl), hv]
  · intro k hk
    exact merge_missing_with_extra default_data saved k hk

/-- A concrete stored document for the C2 witness: `todo_items` is present
with a non-default value, `extra_key` is outside the canonical schema, and
every other canonical key is missing. -/
def c2_saved : List (String × JVal) :=
  [ ("todo_items", JVal.jarr [JVal.jstr "write specs"]),
    ("extra_key", JVal.jint 7) ]

theorem c2_load_shallow_merge_witness :
    ((dictGet? (load_data (ReadResult.ok c2_saved)).data "autostart").isSome = true)
  ∧ dictGet? (load_data (ReadResult.ok c2_saved)).data "autostart" = some (JVal.jbool true)
  ∧ dictGet? (load_data (ReadResult.ok c2_saved)).data "todo_items"
      = some (JVal.jarr [JVal.jstr "write specs"])
  ∧ dictGet? (load_data (ReadResult.ok c2_saved)).data "extra_key"
      = dictGet? c2_saved "extra_key"
  ∧ (load_data (ReadResult.ok c2_saved)).written = (load_data (ReadResult.ok c2_saved)).data :=
  ⟨(c2_load_shallow_merge c2_saved).1 "autostart" (by simp [default_data]),
   (c2_load_shallow_merge c2_saved).2.1 "autostart" (JVal.jbool true)
     (by simp [default_data, dictGet?]) rfl,
   (c2_load_shallow_merge c2_saved).2.2.1 "todo_items" (JVal.jarr [JVal.jstr "write specs"]) rfl,
   (c2_load_shallow_merge c2_saved).2.2.2.1 "extra_key" (by simp [default_data]),
   (c2_load_shallow_merge c2_saved).2.2.2.2⟩

/-- C4: an unreadable or unparsable stored document makes `load_data` fall
back to the canonical default document, totally (the bare `except:` lets no
exception escape), in a single attempt; a missing file behaves the same,
and in both cases the default document is also what is written back. -/
theorem c4_corrupt_falls_back_to_defaults :
    (load_data ReadResult.parseFailure).data = default_data
  ∧ (load_data ReadResult.parseFailure).written = default_data
  ∧ (load_data ReadResult.missingFile).data = default_data := by
  have h1 : load_data ReadResult.parseFailure
      = { data := default_data, written := default_data } := rfl
  have h2 : load_data ReadResult.missingFile
      = { data := default_data, written := default_data } := rfl
  rw [h1, h2]
  exact ⟨rfl, rfl, rfl⟩

theorem timer_complete_ignores_clock (s : PomodoroState) (x : Int) (b : Bool) :
    timer_complete { s with remaining_seconds := x, timer_running := b } = timer_complete s := by
  cases s
  rfl

theorem run_timer_countdown : ∀ (k : Nat) (s : PomodoroState),
    s.timer_running = true → (k : Int) ≤ s.remaining_seconds →
    run_timer^[k] s = { s with remaining_seconds := s.remaining_seconds - k } := by
  intro k
  induction k with
  | zero =>
    intro s hrun hk
    simp
  | succ k ih =>
    intro s hrun hk
    have hpos : s.remaining_seconds > 0 := by
      push_cast at hk
      omega
    have h1 : run_timer s = { s with remaining_seconds := s.remaining_seconds - 1 } := by
      simp [run_timer, hrun, hpos]
    rw [Function.iterate_succ_apply, h1, ih]
    · simp only []
      congr 1
      push_cast
      ring
    · simp [hrun]
    · simp only []
      push_cast at hk ⊢
      omega

/-- The fresh timer state of `PomodoroWidget.__init__`/`build_content`
(src/main.py:1040-1063) under the default settings: `FOCUS` phase, full
focus duration, no sessions completed in the cycle, not running. -/
def init25 : PomodoroState :=
  { timer_running := false, is_focus_time := true, remaining_seconds := 25 * 60,
    sessions_completed := 0, focus_time := 25, break_time := 5, long_break_time := 15,
    sessions_before_long_break := 4, today := 0, history := [] }

/-- C1: from the initial `FOCUS` state under the default settings, the four
focus completions (`timer_complete` iterations 1, 3, 5, 7; the even
iterations complete the intervening breaks and leave the cycle counter
untouched) yield `BREAK`, `BREAK`, `BREAK`, `LONG_BREAK` — the break kind
shows as the assigned duration, 5*60 vs 15*60, the code's only encoding of
it — and `sessions_completed` is 1, 2, 3 after the first three focus
completions and is reset to 0 only by the fourth. -/
theorem c1_session_cycle :
    ((timer_complete^[1] init25).is_focus_time = false
      ∧ (timer_complete^[1] init25).remaining_seconds = 5 * 60
      ∧ (timer_complete^[1] init25).sessions_completed = 1)
  ∧ ((timer_complete^[2] init25).is_focus_time = true
      ∧ (timer_complete^[2] init25).sessions_completed = 1)
  ∧ ((timer_complete^[3] init25).is_focus_time = false
      ∧ (timer_complete^[3] init25).remaining_seconds = 5 * 60
      ∧ (timer_complete^[3] init25).sessions_completed = 2)
  ∧ ((timer_complete^[4] init25).is_focus_time = true
      ∧ (timer_complete^[4] init25).sessions_completed = 2)
  ∧ ((timer_complete^[5] init25).is_focus_time = false
      ∧ (timer_complete^[5] init25).remaining_seconds = 5 * 60
      ∧ (timer_complete^[5] init25).sessions_completed = 3)
  ∧ ((timer_complete^[6] init25).is_focus_time = true
      ∧ (timer_complete^[6] init25).sessions_completed = 3)
  ∧ ((timer_complete^[7] init25).is_focus_time = false
      ∧ (timer_complete^[7] init25).remaining_seconds = 15 * 60
      ∧ (timer_complete^[7] init25).sessions_completed = 0) := by
  decide

/-- C3: with the timer running at `remainingSeconds = 137`, an explicit skip
(`skip_session`) lands in exactly the same state — same next phase, same
`sessions_completed`, same recorded history — as letting the countdown run
to zero naturally (137 decrementing ticks followed by the tick that fires
at zero and invokes `timer_complete`), and it equals the
force-`remainingSeconds`-to-0-then-`timer_complete` path word for word:
`timer_complete` overwrites the clock fields, so the two triggers share one
completion code path with identical side effects. -/
theorem c3_skip_equals_natural_expiry (s : PomodoroState)
    (hrun : s.timer_running = true) (hrem : s.remaining_seconds = 137) :
    skip_session s = run_timer^[138] s
  ∧ skip_session s = timer_complete { s with timer_running := false, remaining_seconds := 0 } := by
  have hskip : skip_session s = timer_complete s := by
    show timer_complete { s with timer_running := false } = timer_complete s
    have := timer_complete_ignores_clock s s.remaining_seconds false
    simpa using this
  have h137 : run_timer^[137] s = { s with remaining_seconds := 0 } := by
    have h := run_timer_countdown 137 s hrun (by rw [hrem]; norm_num)
    have hz : s.remaining_seconds - (((137 : Nat) : Int)) = 0 := by
      rw [hrem]
      norm_num
    rw [h, hz]
  have hnat : run_timer^[138] s = timer_complete { s with remaining_seconds := 0 } := by
    have hstep : (138 : Nat) = 137 + 1 := by norm_num
    rw [hstep, Function.iterate_succ_apply', h137]
    show run_timer { s with remaining_seconds := 0 } = _
    simp [run_timer]
  have hzero : timer_complete { s with remaining_seconds := 0 } = timer_complete s := by
    have := timer_complete_ignores_clock s 0 s.timer_running
    simpa using this
  have hforced : timer_complete { s with timer_running := false, remaining_seconds := 0 }
      = timer_complete s := by
    have := timer_complete_ignores_clock s 0 false
    simpa using this
  exact ⟨by rw [hskip, hnat, hzero], by rw [hskip, hforced]⟩

/-- A concrete running state at 137 seconds for the C3 witness: focus phase,
default settings, two sessions already completed this cycle, a prior
history entry. -/
def c3_state : PomodoroState :=
  { timer_running := true, is_focus_time := true, remaining_seconds := 137,
    sessions_completed := 2, focus_time := 25, break_time := 5, long_break_time := 15,
    sessions_before_long_break := 4, today := 9, history := [(8, ⟨3, 75⟩)] }

theorem c3_skip_equals_natural_expiry_witness :
    skip_session c3_state = run_timer^[138] c3_state
  ∧ skip_session c3_state
      = timer_complete { c3_state with timer_running := false, remaining_seconds := 0 } :=
  c3_skip_equals_natural_expiry c3_state rfl rfl

/-- Paused focus state with the countdown already at zero: the state a
pause leaves behind when the user presses pause right after the last
decrementing tick re-armed the callback. -/
def c9_zero_paused : PomodoroState :=
  { timer_running := false, is_focus_time := true, remaining_seconds := 0,
    sessions_completed := 0, focus_time := 25, break_time := 5, long_break_time := 15,
    sessions_before_long_break := 4, today := 0, history := [] }

/-- C9 counterexample: the claim says a tick firing while `running=false`
never invokes the phase-completion transition, including after a pause at
`remainingSeconds=0`.  At exactly that state the code's `run_timer` falls
into the `elif self.remaining_seconds == 0` branch — which has no
`timer_running` guard — and completes the phase: the state changes, the
phase flips out of focus, and a session is recorded. -/
theorem c9_paused_tick_fires_completion :
    c9_zero_paused.timer_running = false
  ∧ run_timer c9_zero_paused ≠ c9_zero_paused
  ∧ run_timer c9_zero_paused = timer_complete c9_zero_paused
  ∧ (run_timer c9_zero_paused).is_focus_time = false
  ∧ (run_timer c9_zero_paused).remaining_seconds = 5 * 60
  ∧ (run_timer c9_zero_paused).history = [(0, ⟨1, 25⟩)] := by
  decide

/-- C9 amended: a tick that fires while `running=false` neither decrements
`remainingSeconds` nor invokes the completion transition as long as
`remainingSeconds ≠ 0` (the tick is a pure no-op); but when
`remainingSeconds = 0` the unguarded `elif` invokes `timer_complete`
even though the timer is paused. -/
theorem c9_paused_tick_amended (s : PomodoroState) (h : s.timer_running = false) :
    (s.remaining_seconds ≠ 0 → run_timer s = s)
  ∧ (s.remaining_seconds = 0 → run_timer s = timer_complete s) := by
  constructor
  · intro hne
    simp [run_timer, h, hne]
  · intro h0
    simp [run_timer, h, h0]

/-- Paused break state with time on the clock, for the C9 witness. -/
def c9_paused : PomodoroState :=
  { timer_running := false, is_focus_time := false, remaining_seconds := 100,
    sessions_completed := 1, focus_time := 25, break_time := 5, long_break_time := 15,
    sessions_before_long_break := 4, today := 0, history := [] }

theorem c9_paused_tick_amended_witness :
    run_timer c9_paused = c9_paused
  ∧ run_timer c9_zero_paused = timer_complete c9_zero_paused :=
  ⟨(c9_paused_tick_amended c9_paused rfl).1 (by decide),
   (c9_paused_tick_amended c9_zero_paused rfl).2 rfl⟩

/-- A running focus countdown at 1500 seconds, the C5 scenario. -/
def c5_running : PomodoroState :=
  { timer_running := true, is_focus_time := true, remaining_seconds := 1500,
    sessions_completed := 0, focus_time := 25, break_time := 5, long_break_time := 15,
    sessions_before_long_break := 4, today := 0, history := [] }

/-- C5: the claim says the tick derives the remaining time from a stored
deadline as `max(0, deadline - now)`; the code's `run_timer` instead
unconditionally subtracts one second per callback firing.  Under scheduling
jitter that stretches each nominal 1-second `after(1000, ...)` callback to
2 seconds of real time, only 750 callbacks have fired when 1500 seconds of
logical time have elapsed, so the code shows `remainingSeconds = 750` —
while the spec's deadline computation (deadline `0 + 1500`, now `1500`)
yields exactly 0. -/
theorem c5_fixed_decrement_drifts :
    (run_timer^[ticks_fired_by 2 1500] c5_running).remaining_seconds = 750
  ∧ deadline_remaining (0 + 1500) 1500 = 0
  ∧ ((750 : Int) ≠ 0) := by
  refine ⟨?_, by decide, by decide⟩
  have hfired : ticks_fired_by 2 1500 = 750 := rfl
  rw [hfired, run_timer_countdown 750 c5_running rfl (by norm_num [c5_running])]
  norm_num [c5_running]

/-- A paused focus state under the default settings, from which the
settings dialog is used; for the C7 counterexample. -/
def c7_state : PomodoroState :=
  { timer_running := false, is_focus_time := true, remaining_seconds := 1500,
    sessions_completed := 0, focus_time := 25, break_time := 5, long_break_time := 15,
    sessions_before_long_break := 4, today := 0, history := [] }

/-- C7 counterexample: the claim says an attempt to apply a non-positive
duration is rejected with a validation error and the previous settings are
retained.  Entering focus = "0" parses fine (`int("0") = 0` raises no
`ValueError`), so `save_settings` reports success and applies the
non-positive duration: the previous focus setting 25 is replaced by 0. -/
theorem c7_nonpositive_settings_accepted :
    (save_settings c7_state "0" "5" "15").2 = true
  ∧ (save_settings c7_state "0" "5" "15").1.focus_time = 0
  ∧ c7_state.focus_time = 25
  ∧ (save_settings c7_state "0" "5" "15").1.remaining_seconds = 0 := by
  decide

/-- C7 amended: only a non-numeric duration string is rejected (the
`int(...)` call raises `ValueError` before any attribute or store
mutation), in which case the previously configured settings — all four
fields, and the whole state — are retained completely unchanged, so the
change is never partially applied.  Non-positive integer values, however,
parse successfully and are accepted, not rejected. -/
theorem c7_nonnumeric_settings_rejected (s : PomodoroState) (fs bs ls : String)
    (h : pyInt? fs = none ∨ pyInt? bs = none ∨ pyInt? ls = none) :
    save_settings s fs bs ls = (s, false) := by
  rcases h with h | h | h
  · simp [save_settings, h]
  · cases hf : pyInt? fs <;> simp [save_settings, hf, h]
  · cases hf : pyInt? fs <;> cases hb : pyInt? bs <;> simp [save_settings, hf, hb, h]

theorem c7_nonnumeric_settings_rejected_witness :
    save_settings c7_state "abc" "5" "15" = (c7_state, false)
  ∧ save_settings c7_state "30" "" "15" = (c7_state, false) :=
  ⟨c7_nonnumeric_settings_rejected c7_state "abc" "5" "15" (Or.inl rfl),
   c7_nonnumeric_settings_rejected c7_state "30" "" "15" (Or.inr (Or.inl rfl))⟩

/-- A paused BREAK-phase state under the default settings, for the C8
counterexample: the claim says applying new settings here must reset
`remainingSeconds` to the new break duration. -/
def c8_break_paused : PomodoroState :=
  { timer_running := false, is_focus_time := false, remaining_seconds := 300,
    sessions_completed := 1, focus_time := 25, break_time := 5, long_break_time := 15,
    sessions_before_long_break := 4, today := 0, history := [] }

/-- C8 counterexample: with the timer paused in the BREAK phase, applying
new valid settings (focus 30, break 10, long break 20) must per the claim
reset `remainingSeconds` to the new duration of the current phase, i.e.
`10*60 = 600`.  The code's `save_settings` always uses
`self.focus_time * 60` when not running, so the result is 1800, not 600. -/
theorem c8_reset_ignores_phase :
    c8_break_paused.is_focus_time = false
  ∧ c8_break_paused.timer_running = false
  ∧ (save_settings c8_break_paused "30" "10" "20").1.remaining_seconds = 30 * 60
  ∧ ((30 * 60 : Int) ≠ 10 * 60) := by
  decide

/-- C8 amended: applying parseable settings always succeeds and sets the
three durations (keeping `sessions_before_long_break` and the phase); when
the timer is not running it resets `remainingSeconds` to the new FOCUS
duration regardless of the current phase, and when the timer is running it
leaves the in-progress countdown untouched (the new durations are only read
at the next phase transition). -/
theorem c8_apply_settings_amended (s : PomodoroState) (fs bs ls : String)
    (f b l : Int) (hf : pyInt? fs = some f) (hb : pyInt? bs = some b)
    (hl : pyInt? ls = some l) :
    save_settings s fs bs ls =
      ({ s with focus_time := f, break_time := b, long_break_time := l,
                remaining_seconds :=
                  if s.timer_running then s.remaining_seconds else f * 60 }, true) := by
  simp only [save_settings, hf, hb, hl]
  cases htr : s.timer_running <;> simp [htr]

theorem c8_apply_settings_amended_witness :
    save_settings c8_break_paused "30" "10" "20" =
      ({ c8_break_paused with
          focus_time := 30,
          break_time := 10,
          long_break_time := 20,
          remaining_seconds :=
            if c8_break_paused.timer_running then c8_break_paused.remaining_seconds
            else 30 * 60 }, true) :=
  c8_apply_settings_amended c8_break_paused "30" "10" "20" 30 10 20 rfl rfl rfl

theorem record_hist_get_today (today : Nat) (ft : Int) (h : List (Nat × Bucket)) :
    dictGet? (record_session_hist today ft h) today =
      some ⟨(bucketAt h today).sessions + 1, (bucketAt h today).focus_minutes + ft⟩ := by
  cases hx : dictGet? h today with
  | some b =>
    simp [record_session_hist, bucketAt, hx, dictGet?_dictSet_self]
  | none =>
    simp [record_session_hist, bucketAt, hx, dictGet?_dictSet_self]

theorem record_hist_get_other (today d : Nat) (ft : Int) (h : List (Nat × Bucket))
    (hne : d ≠ today) :
    dictGet? (record_session_hist today ft h) d = dictGet? h d := by
  cases hx : dictGet? h today with
  | some b =>
    simp [record_session_hist, hx, dictGet?_dictSet_ne _ _ _ _ hne]
  | none =>
    simp [record_session_hist, hx, dictGet?_dictSet_self, dictGet?_dictSet_ne _ _ _ _ hne]

theorem week_fold_spec (h : List (Nat × Bucket)) :
    ∀ (days : List Nat) (acc : Int × Int),
      days.foldl
        (fun acc d =>
          match dictGet? h d with
          | some b => (acc.1 + b.sessions, acc.2 + b.focus_minutes)
          | none => acc) acc
      = (acc.1 + ((days.map (fun d => (bucketAt h d).sessions)).sum),
         acc.2 + ((days.map (fun d => (bucketAt h d).focus_minutes)).sum)) := by
  intro days
  induction days with
  | nil =>
    intro acc
    simp
  | cons d ds ih =>
    intro acc
    rw [List.foldl_cons]
    have hstep :
        (match dictGet? h d with
          | some b => (acc.1 + b.sessions, acc.2 + b.focus_minutes)
          | none => acc)
        = (acc.1 + (bucketAt h d).sessions, acc.2 + (bucketAt h d).focus_minutes) := by
      cases hx : dictGet? h d with
      | some b => simp [bucketAt, hx]
      | none => simp [bucketAt, hx]
    rw [hstep, ih]
    simp [add_assoc]

theorem get_week_stats_eq_spec (today : Nat) (h : List (Nat × Bucket)) :
    get_week_stats today h = week_totals_spec today h := by
  unfold get_week_stats
  have hmap := List.foldl_map (fun i => (today - today % 7) + i)
      (fun (acc : Int × Int) d =>
        match dictGet? h d with
        | some b => (acc.1 + b.sessions, acc.2 + b.focus_minutes)
        | none => acc)
      (List.range 7) ((0 : Int), (0 : Int))
  rw [← hmap, week_fold_spec h ((List.range 7).map fun i => (today - today % 7) + i) (0, 0)]
  simp [week_totals_spec, week_window]

/-- C10: `record_session` bumps today's bucket — `sessions` by 1 and
`focus_minutes` by the configured focus duration — treating a missing day
as a zero bucket and touching no other day's bucket; in particular two
25-minute focus sessions recorded on a fresh day leave that day at
`{sessions: 2, focus_minutes: 50}`.  And `get_week_stats` equals the sum of
the buckets over the Monday-through-Sunday window containing the reference
day, days without a bucket contributing zero (the computation only reads
the history). -/
theorem c10_history_aggregation (history : List (Nat × Bucket)) (today d : Nat) (ft : Int) :
    (dictGet? (record_session_hist today ft history) today
        = some ⟨(bucketAt history today).sessions + 1,
                (bucketAt history today).focus_minutes + ft⟩)
  ∧ (d ≠ today → dictGet? (record_session_hist today ft history) d = dictGet? history d)
  ∧ (dictGet? history today = none →
        dictGet? (record_session_hist today 25 (record_session_hist today 25 history)) today
          = some ⟨2, 50⟩)
  ∧ get_week_stats today history = week_totals_spec today history := by
  refine ⟨record_hist_get_today today ft history, ?_, ?_, get_week_stats_eq_spec today history⟩
  · intro hne
    exact record_hist_get_other today d ft history hne
  · intro h0
    have h1 := record_hist_get_today today 25 history
    have h2 := record_hist_get_today today 25 (record_session_hist today 25 history)
    have hzero : bucketAt history today = ⟨0, 0⟩ := by
      rw [bucketAt, h0]
      rfl
    have hb : bucketAt (record_session_hist today 25 history) today
        = ⟨(bucketAt history today).sessions + 1, (bucketAt history today).focus_minutes + 25⟩ := by
      rw [bucketAt, h1]
      rfl
    rw [h2, hb, hzero]
    decide

/-- A concrete history for the C10 witness: day 3 (a Thursday) already has
one 25-minute session; day 10 (the Thursday of the following week) has no
bucket yet. -/
def c10_hist : List (Nat × Bucket) := [(3, ⟨1, 25⟩)]

theorem c10_history_aggregation_witness :
    dictGet? (record_session_hist 10 25 c10_hist) 10
      = some ⟨(bucketAt c10_hist 10).sessions + 1, (bucketAt c10_hist 10).focus_minutes + 25⟩
  ∧ dictGet? (record_session_hist 10 25 c10_hist) 3 = dictGet? c10_hist 3
  ∧ dictGet? (record_session_hist 10 25 (record_session_hist 10 25 c10_hist)) 10
      = some ⟨2, 50⟩
  ∧ get_week_stats 10 c10_hist = week_totals_spec 10 c10_hist :=
  ⟨(c10_history_aggregation c10_hist 10 3 25).1,
   (c10_history_aggregation c10_hist 10 3 25).2.1 (by decide),
   (c10_history_aggregation c10_hist 10 3 25).2.2.1 (by decide),
   (c10_history_aggregation c10_hist 10 3 25).2.2.2⟩

/-- C6: the claim says a save is written to a temporary file and atomically
renamed so that a failed or interrupted save leaves the previously stored
document intact, with failures surfaced as reportable errors.  The code's
`save_data` (src/main.py:90-92) instead opens the target file itself in
write mode — truncating the previous document immediately — and serialises
into it with no try/except and no rename: a process interrupted (or a write
failing, e.g. disk full) right after the open leaves an empty file on disk,
which is neither the previous document nor the new one, and no error value
reaches any caller. -/
theorem c6_save_truncates_in_place :
    save_data_disk_after "prev-document" "new-document" 1 = ""
  ∧ ("" : String) ≠ "prev-document"
  ∧ ("" : String) ≠ "new-document"
  ∧ save_data_disk_after "prev-document" "new-document" 2 = "new-document"
  ∧ save_data_disk_after "prev-document" "new-document" 0 = "prev-document" := by
  refine ⟨rfl, ?_, ?_, rfl, rfl⟩
  · intro h
    simp at h
  · intro h
    simp at h
